import Mathlib

/-! Overview.

Shallow embedding of the `punvit/railway` control-center dashboard
(`src/pages/ControlCenterPage.tsx`, `src/components/control-center/
ChannelHealthWidget.tsx`, `src/components/control-center/BulkUpdateDrawer.tsx`)
together with a spec-modelled hotel channel-manager synchronization core
(Ledger, Reconciliation Engine, Outbound Sync Scheduler) whose backend code is
absent from the repository: the README only documents its endpoints.

Conventions of the embedding:
* Calendar dates are represented by their day number (days since an arbitrary
  epoch); `addDays(d, i)` becomes `d + i` and the `yyyy-MM-dd` format string is
  injective on dates, so a formatted date key is represented by the day number.
* `Math.random()` is an environment-supplied stream `rng : Nat → ℚ` of values
  in `[0, 1)`, indexed by call order.
* Rendering a React component is a pure function from its inputs to a view
  value paired with the list of side effects it performs; event handlers map
  the form state to the list of effects they perform.
-/

/-- Side effects a dashboard component could perform.  `networkCall`,
`persistState` and `externalSync` never occur in the source; they exist so that
their absence from every effect list is a statement, not a typing accident. -/
inductive RenderEffect where
  | networkCall (url : String)
  | persistState (key : String)
  | externalSync (channel : String)
  | consoleLog (message : String)
  | setDrawerOpen (isDrawerOpen : Bool)
deriving Repr, DecidableEq

/-- An effect that reaches outside the browser page: a network call, a
persisted write, or a synchronization with an external system. -/
def RenderEffect.touchesOutside : RenderEffect → Bool
  | .networkCall _ => true
  | .persistState _ => true
  | .externalSync _ => true
  | .consoleLog _ => false
  | .setDrawerOpen _ => false

/-! Section: InventoryGrid (`ControlCenterPage.tsx`) -/

/-- The `type RoomType` record (`id`, `name`) from `ControlCenterPage.tsx`. -/
structure RoomType where
  id : String
  name : String
deriving Repr, DecidableEq

/-- The `type DailyStats` record from `ControlCenterPage.tsx`; `date` is the day number
standing for the `yyyy-MM-dd` key. -/
structure DailyStats where
  date : Nat
  inventory : Int
  rate : Int
  isSoldOut : Bool
deriving Repr, DecidableEq

/-- The `ROOM_TYPES` constant from `ControlCenterPage.tsx`. -/
def ROOM_TYPES : List RoomType :=
  [ { id := "deluxe", name := "Deluxe King" }
  , { id := "standard", name := "Standard Twin" }
  , { id := "suite", name := "Executive Suite" }
  , { id := "family", name := "Family Room" } ]

/-- One iteration of the inner loop of `generateMockData`: consumes the two
`Math.random()` draws for (room index `r`, day `i`) and builds the
`DailyStats` cell.  `inventory = Math.floor(Math.random() * 11)` and
`rate = 100 + Math.floor(Math.random() * 50)`. -/
def mockDay (rng : Nat → ℚ) (days r startDate i : Nat) : DailyStats :=
  let k := 2 * (r * days + i)
  let inventory : Int := Int.floor (rng k * 11)
  { date := startDate + i
  , inventory := inventory
  , rate := 100 + Int.floor (rng (k + 1) * 50)
  , isSoldOut := inventory == 0 }

/-- The function `generateMockData(startDate, days)` from `ControlCenterPage.tsx`: for every
room of `ROOM_TYPES` and every day offset `i < days`, a record keyed by room id
then by date.  The JS nested `Record` objects become association lists whose
insertion order is the loop order. -/
def generateMockData (rng : Nat → ℚ) (startDate days : Nat) :
    List (String × List (Nat × DailyStats)) :=
  ROOM_TYPES.enum.map (fun p =>
    (p.2.id, (List.range days).map (fun i =>
      (startDate + i, mockDay rng days p.1 startDate i))))

/-- The render-time access `gridData[room.id][dateStr]`: a JS property access
that may yield `undefined`, hence `Option`. -/
def gridLookup (data : List (String × List (Nat × DailyStats)))
    (roomId : String) (d : Nat) : Option DailyStats :=
  match data.lookup roomId with
  | none => none
  | some m => m.lookup d

/-- The function `getCellColor` from `ControlCenterPage.tsx`. -/
def getCellColor (inventory : Int) (isSoldOut : Bool) : String :=
  if isSoldOut || inventory == 0 then "bg-red-50 text-red-900"
  else if inventory ≤ 5 then "bg-amber-50 text-amber-900"
  else "bg-emerald-50 text-emerald-900"

/-- What one grid cell displays. -/
structure CellView where
  inventoryLabel : String
  rateLabel : String
  colorClass : String
deriving Repr, DecidableEq

/-- Rendering one data cell of the grid:
`{cellData.isSoldOut ? "SOLD" : cellData.inventory}` and `${cellData.rate}`. -/
def renderCell (cd : DailyStats) : CellView :=
  { inventoryLabel := if cd.isSoldOut then "SOLD" else toString cd.inventory
  , rateLabel := "$" ++ toString cd.rate
  , colorClass := getCellColor cd.inventory cd.isSoldOut }

/-- Collects a list of possibly-undefined values; `none` anywhere models the
render crashing on an `undefined` property access. -/
def seqOption {α : Type} : List (Option α) → Option (List α)
  | [] => some []
  | none :: _ => none
  | some a :: t => (seqOption t).map (a :: ·)

/-- The `InventoryGrid` component: `today = startOfToday()` and the `rng`
stream are its environment.  It generates `gridData` with
`generateMockData(today, 30)`, derives 30 date headers from `today`, and
renders one row of cells per room type, looking every cell up in `gridData`.
It performs no side effects. -/
def InventoryGrid (rng : Nat → ℚ) (today : Nat) :
    Option (List (String × List CellView)) × List RenderEffect :=
  let days := 30
  let gridData := generateMockData rng today days
  let rows := seqOption (ROOM_TYPES.map (fun room =>
    (seqOption ((List.range days).map (fun i =>
      gridLookup gridData room.id (today + i)))).map
      (fun cells => (room.name, cells.map renderCell))))
  (rows, [])

/-! Section: ChannelHealthWidget (`ChannelHealthWidget.tsx`) -/

/-- The `"online" | "error"` union type of a channel status. -/
inductive ChannelStatusKind where
  | online
  | error
deriving Repr, DecidableEq

/-- The `type ChannelStatus` record from `ChannelHealthWidget.tsx`. -/
structure ChannelStatus where
  id : String
  name : String
  status : ChannelStatusKind
  lastSync : String
deriving Repr, DecidableEq

/-- The static `CHANNELS` constant from `ChannelHealthWidget.tsx`. -/
def CHANNELS : List ChannelStatus :=
  [ { id := "booking", name := "Booking.com", status := .online, lastSync := "2 mins ago" }
  , { id := "airbnb", name := "Airbnb", status := .online, lastSync := "5 mins ago" }
  , { id := "expedia", name := "Expedia", status := .error, lastSync := "Failed 1h ago" }
  , { id := "agoda", name := "Agoda", status := .online, lastSync := "10 mins ago" } ]

/-- What one channel card displays. -/
structure ChannelCard where
  name : String
  statusOk : Bool
  statusLine : String
deriving Repr, DecidableEq

/-- Rendering one channel card: the name, a check (online) or alert (error)
icon, and the status line (`Synced <lastSync>` or `Auth Failed`). -/
def renderChannel (c : ChannelStatus) : ChannelCard :=
  { name := c.name
  , statusOk := c.status == .online
  , statusLine := if c.status == .online then "Synced " ++ c.lastSync else "Auth Failed" }

/-- The `ChannelHealthWidget` component: maps the static `CHANNELS` array to
cards and performs no side effects. -/
def ChannelHealthWidget : List ChannelCard × List RenderEffect :=
  (CHANNELS.map renderChannel, [])

/-! Section: BulkUpdateDrawer (`BulkUpdateDrawer.tsx`) -/

/-- The `DateRange` type from `react-day-picker`: both endpoints may be undefined. -/
structure DateRange where
  fromDate : Option Nat
  toDate : Option Nat
deriving Repr, DecidableEq

/-- The drawer form state: `date`, `roomType`, `rate`, `isOpen`. -/
structure BulkForm where
  date : Option DateRange
  roomType : String
  rate : String
  isOpen : Bool
deriving Repr, DecidableEq

/-- Textual rendering of the object literal `console.log` receives. -/
def encodeForm (f : BulkForm) : String :=
  let range := match f.date with
    | none => "undefined"
    | some r => toString r.fromDate ++ ".." ++ toString r.toDate
  "date=" ++ range ++ " roomType=" ++ f.roomType ++ " rate=" ++ f.rate
    ++ " isOpen=" ++ toString f.isOpen

/-- The handler `handleUpdate` from `BulkUpdateDrawer.tsx`: logs the form values and calls
`onOpenChange(false)`.  It inspects no field before doing so. -/
def handleUpdate (form : BulkForm) : List RenderEffect :=
  [ .consoleLog ("Updating " ++ encodeForm form)
  , .setDrawerOpen false ]

/-! Section: spec-modelled synchronization core

The README (`src/unnamed/part_000`) documents a FastAPI backend (webhook
ingestion, iCal sync, inventory and rate-parity endpoints) whose code is not
in the repository.  The definitions below are modelled from the specification
of that backend. -/

/-- Modelled from the spec: the `InventoryDay` record of section 3 (the
backend data model is absent from the repository).  Key fields are carried by
the ledger map; `last_modified_by` is irrelevant to the claims and omitted. -/
structure InventoryDay where
  available_units : Nat
  rate : ℚ
  is_open : Bool
  version : Nat
deriving Repr, DecidableEq

/-- Modelled from the spec: a Ledger mutation setting any subset of the
writable `InventoryDay` fields (section 4.1). -/
structure LedgerMutation where
  set_units : Option Nat
  set_rate : Option ℚ
  set_is_open : Option Bool
deriving Repr, DecidableEq

/-- Modelled from the spec: the Ledger state, keyed by
`(room_type_id, date)`; the map is an association list where `lookup` finds
the most recent binding. -/
abbrev Ledger : Type := List ((String × Nat) × InventoryDay)

/-- Modelled from the spec: the error taxonomy entry `VersionConflict`
(section 7). -/
inductive LedgerError where
  | VersionConflict
deriving Repr, DecidableEq

/-- Applying a mutation's field updates to an existing day bumps the version
by one (spec: version strictly increases on every mutation). -/
def applyFields (m : LedgerMutation) (d : InventoryDay) : InventoryDay :=
  { available_units := m.set_units.getD d.available_units
  , rate := m.set_rate.getD d.rate
  , is_open := m.set_is_open.getD d.is_open
  , version := d.version + 1 }

/-- A first write creates the day at version 1. -/
def firstDay (m : LedgerMutation) : InventoryDay :=
  { available_units := m.set_units.getD 0
  , rate := m.set_rate.getD 0
  , is_open := m.set_is_open.getD true
  , version := 1 }

/-- Modelled from the spec: `apply(mutation, expected_version|none) ->
new_version | fails with VersionConflict` (section 4.1).  Every write must
supply the version it read, or none for the first write; on mismatch the
call fails with `VersionConflict`. -/
def Ledger.apply (l : Ledger) (key : String × Nat) (m : LedgerMutation)
    (expected : Option Nat) : Except LedgerError (Nat × Ledger) :=
  match l.lookup key with
  | none =>
    match expected with
    | none => .ok (1, (key, firstDay m) :: l)
    | some _ => .error .VersionConflict
  | some d =>
    match expected with
    | none => .error .VersionConflict
    | some v =>
      if v = d.version then
        .ok ((applyFields m d).version, (key, applyFields m d) :: l)
      else .error .VersionConflict

/-- Current stored version of a key, 0 when the day does not exist yet. -/
def ledgerVersion (l : Ledger) (key : String × Nat) : Nat :=
  match l.lookup key with
  | none => 0
  | some d => d.version

/-- Modelled from the spec: Booking status, `{confirmed, cancelled}` plus the
`CONFLICT` state of the double-booking resolution path (sections 3, 4.3). -/
inductive BookingStatus where
  | confirmed
  | cancelled
  | conflict
deriving Repr, DecidableEq

/-- Modelled from the spec: the `Booking` record of section 3; `units` is the
number of units the booking holds (the section 8 scenario books 2 and 9
units), and the date range is `[check_in, check_out)` in day numbers. -/
structure Booking where
  id : String
  room_type_id : String
  check_in : Nat
  check_out : Nat
  source_channel : String
  external_reservation_id : String
  status : BookingStatus
  created_at : Nat
  units : Nat
deriving Repr, DecidableEq

/-! Subsection: iCal ingestion (section 6, the ical-sync webhook) -/

/-- Modelled from the spec: one VEVENT of an iCal feed — an external block or
reservation with its unique id and date range. -/
structure IcalEvent where
  uid : String
  room_type_id : String
  check_in : Nat
  check_out : Nat
deriving Repr, DecidableEq

/-- The Booking created for a feed event new to the channel. -/
def icalBooking (ch : String) (now : Nat) (e : IcalEvent) : Booking :=
  { id := ch ++ ":" ++ e.uid
  , room_type_id := e.room_type_id
  , check_in := e.check_in
  , check_out := e.check_out
  , source_channel := ch
  , external_reservation_id := e.uid
  , status := .confirmed
  , created_at := now
  , units := 1 }

/-- The cancel half of the diff: a confirmed Booking of the feed's channel
whose external id no longer appears in the feed is cancelled; every other
Booking is left alone. -/
def cancelMissing (ch : String) (feed : List IcalEvent) (b : Booking) : Booking :=
  if b.source_channel == ch && b.status == BookingStatus.confirmed
      && !(feed.any (fun e => e.uid == b.external_reservation_id)) then
    { b with status := .cancelled }
  else b

/-- Modelled from the spec: iCal ingestion "ingests a full iCal feed and
diffs against existing Bookings for that channel (adds new, cancels missing,
idempotent re-ingestion)" (section 6).  Deduplication is by
`(channel_id, external_reservation_id)` (section 4.2). -/
def ingestIcal (ch : String) (feed : List IcalEvent) (now : Nat)
    (bs : List Booking) : List Booking :=
  let kept := bs.map (cancelMissing ch feed)
  let fresh := feed.filter (fun e =>
    !(bs.any (fun b => b.source_channel == ch && b.external_reservation_id == e.uid)))
  kept ++ fresh.map (icalBooking ch now)

/-! Subsection: double-booking resolution (section 4.3) -/

/-- The losing Booking of a capacity conflict moves to the CONFLICT state. -/
def conflictLoser (b : Booking) : Booking :=
  { b with status := .conflict }

/-- Two bookings overlap when they book the same room type and their
half-open date ranges intersect. -/
def bookingsOverlap (a b : Booking) : Bool :=
  a.room_type_id == b.room_type_id
    && decide (a.check_in < b.check_out) && decide (b.check_in < a.check_out)

/-- Modelled from the spec: "On capacity overflow from two channels confirming
overlapping bookings for the same slot, the engine applies a deterministic
tie-break: earliest created_at wins confirmation; the losing Booking
transitions to a CONFLICT state" (section 4.3).  The pair is returned in
arrival order. -/
def resolveDoubleBooking (capacity : Nat) (a b : Booking) : Booking × Booking :=
  if a.status == BookingStatus.confirmed && b.status == BookingStatus.confirmed
      && a.source_channel != b.source_channel && bookingsOverlap a b
      && decide (capacity < a.units + b.units) then
    if a.created_at ≤ b.created_at then (a, conflictLoser b)
    else (conflictLoser a, b)
  else (a, b)

/-! Subsection: cancellation events (sections 4.3 and 8) -/

/-- Modelled from the spec: Reconciliation Engine state — the Ledger plus the
Booking store it owns (section 3, Ownership). -/
structure EngineState where
  ledger : Ledger
  bookings : List Booking
deriving Repr, DecidableEq

/-- Modelled from the spec: reconciliation errors surfaced to the caller; a
cancellation for an unknown booking id cannot be applied. -/
inductive RecError where
  | unknownBooking
deriving Repr, DecidableEq

/-- Restocking one day of a cancelled booking: returns the booking's units to
`available_units` and bumps the version (one Ledger mutation). -/
def restockDay (l : Ledger) (room : String) (d : Nat) (units : Nat) : Ledger :=
  match l.lookup (room, d) with
  | none => l
  | some day =>
    ((room, d),
      { day with available_units := day.available_units + units
               , version := day.version + 1 }) :: l

/-- Modelled from the spec: applying a cancellation event to a Booking
(section 4.3).  "Cancellations always apply regardless of order (monotonic: a
later cancellation event for an already-cancelled booking is a no-op, not an
error)"; the returned version is the Ledger version for the booking's
`(room_type_id, check_in)` key, unchanged by a no-op. -/
def cancelBooking (st : EngineState) (bid : String) :
    Except RecError (Nat × EngineState) :=
  match st.bookings.find? (fun b => b.id == bid) with
  | none => .error .unknownBooking
  | some b =>
    match b.status with
    | .cancelled => .ok (ledgerVersion st.ledger (b.room_type_id, b.check_in), st)
    | _ =>
      let bookings := st.bookings.map (fun x =>
        if x.id == bid then { x with status := BookingStatus.cancelled } else x)
      let ledger := (List.range (b.check_out - b.check_in)).foldl
        (fun acc i => restockDay acc b.room_type_id (b.check_in + i) b.units)
        st.ledger
      .ok (ledgerVersion ledger (b.room_type_id, b.check_in),
           { ledger := ledger, bookings := bookings })

/-! Subsection: circuit breaking in the Outbound Sync Scheduler (section 4.4) -/

/-- Modelled from the spec: `circuit_state {closed, open, half_open}` of
`ChannelAdapterState` (section 3); `open` is a Lean keyword, hence
`opened`. -/
inductive CircuitState where
  | closed
  | opened
  | halfOpen
deriving Repr, DecidableEq

/-- Modelled from the spec: the per-channel scheduler state relevant to
circuit breaking — the consecutive failure count, the circuit state, and the
time the circuit opened. -/
structure ChannelAdapterState where
  consecutive_failure_count : Nat
  circuit_state : CircuitState
  opened_at : Nat
deriving Repr, DecidableEq

/-- The default failure threshold K of section 4.4. -/
def failureThreshold : Nat := 5

/-- Modelled from the spec: recording one dispatch failure; "after K
consecutive failures (default 5) the channel's circuit opens" (section
4.4). -/
def recordFailure (st : ChannelAdapterState) (now : Nat) : ChannelAdapterState :=
  let f := st.consecutive_failure_count + 1
  if failureThreshold ≤ f then
    { consecutive_failure_count := f, circuit_state := .opened, opened_at := now }
  else
    { st with consecutive_failure_count := f }

/-- What the scheduler does for a channel on one dispatch cycle. -/
inductive DispatchAction where
  | batch
  | halfOpenProbe
  | suspended
deriving Repr, DecidableEq

/-- Modelled from the spec: the scheduler's per-cycle dispatch decision for a
channel (section 4.4).  A closed circuit dispatches a batch; an open circuit
suspends dispatch until the cool-down window elapses and then sends a single
half-open probe; while the probe is outstanding nothing else is
dispatched. -/
def dispatchStep (st : ChannelAdapterState) (window now : Nat) :
    DispatchAction × ChannelAdapterState :=
  match st.circuit_state with
  | .closed => (.batch, st)
  | .opened =>
    if now < st.opened_at + window then (.suspended, st)
    else (.halfOpenProbe, { st with circuit_state := .halfOpen })
  | .halfOpen => (.suspended, st)

/-! Section: theorems -/

/-- Bounds of one generated cell, given that every `Math.random()` draw lies
in `[0, 1)`. -/
theorem mockDay_ranges (rng : Nat → ℚ) (h : ∀ n, 0 ≤ rng n ∧ rng n < 1)
    (days r startDate i : Nat) :
    0 ≤ (mockDay rng days r startDate i).inventory
    ∧ (mockDay rng days r startDate i).inventory ≤ 10
    ∧ 100 ≤ (mockDay rng days r startDate i).rate
    ∧ (mockDay rng days r startDate i).rate ≤ 149
    ∧ ((mockDay rng days r startDate i).isSoldOut = true
        ↔ (mockDay rng days r startDate i).inventory = 0) := by
  obtain ⟨h0a, h1a⟩ := h (2 * (r * days + i))
  obtain ⟨h0b, h1b⟩ := h (2 * (r * days + i) + 1)
  simp only [mockDay]
  have inv0 : 0 ≤ Int.floor (rng (2 * (r * days + i)) * 11) :=
    Int.floor_nonneg.mpr (by positivity)
  have inv1 : Int.floor (rng (2 * (r * days + i)) * 11) < 11 := by
    rw [Int.floor_lt]
    push_cast
    nlinarith
  have rate0 : 0 ≤ Int.floor (rng (2 * (r * days + i) + 1) * 50) :=
    Int.floor_nonneg.mpr (by positivity)
  have rate1 : Int.floor (rng (2 * (r * days + i) + 1) * 50) < 50 := by
    rw [Int.floor_lt]
    push_cast
    nlinarith
  refine ⟨inv0, by omega, by omega, by omega, ?_⟩
  exact beq_iff_eq

/-- C2: for every room type and every generated day, `generateMockData` yields
an inventory between 0 and 10 inclusive, a rate between 100 and 149 inclusive,
and `isSoldOut` true exactly when the inventory is 0 — provided every
`Math.random()` draw lies in `[0, 1)`. -/
theorem generateMockData_field_ranges :
    ∀ (rng : Nat → ℚ), (∀ n, 0 ≤ rng n ∧ rng n < 1) →
    ∀ (startDate days : Nat) (row : String × List (Nat × DailyStats)),
      row ∈ generateMockData rng startDate days →
      ∀ cell ∈ row.2,
        0 ≤ cell.2.inventory ∧ cell.2.inventory ≤ 10
        ∧ 100 ≤ cell.2.rate ∧ cell.2.rate ≤ 149
        ∧ (cell.2.isSoldOut = true ↔ cell.2.inventory = 0) := by
  intro rng h startDate days row hrow cell hcell
  simp only [generateMockData, List.mem_map] at hrow
  obtain ⟨p, hp, rfl⟩ := hrow
  simp only [List.mem_map] at hcell
  obtain ⟨i, hi, rfl⟩ := hcell
  exact mockDay_ranges rng h days p.1 startDate i

/-- Closed instance of `generateMockData_field_ranges` at a concrete random
stream, start date and day count. -/
theorem generateMockData_field_ranges_witness :
    0 ≤ ((0, mockDay (fun _ => (0 : ℚ)) 1 0 0 0) : Nat × DailyStats).2.inventory
    ∧ ((0, mockDay (fun _ => (0 : ℚ)) 1 0 0 0) : Nat × DailyStats).2.inventory ≤ 10
    ∧ 100 ≤ ((0, mockDay (fun _ => (0 : ℚ)) 1 0 0 0) : Nat × DailyStats).2.rate
    ∧ ((0, mockDay (fun _ => (0 : ℚ)) 1 0 0 0) : Nat × DailyStats).2.rate ≤ 149
    ∧ (((0, mockDay (fun _ => (0 : ℚ)) 1 0 0 0) : Nat × DailyStats).2.isSoldOut = true
        ↔ ((0, mockDay (fun _ => (0 : ℚ)) 1 0 0 0) : Nat × DailyStats).2.inventory = 0) :=
  generateMockData_field_ranges (fun _ => 0)
    (fun _ => ⟨le_refl 0, by norm_num⟩) 0 1
    ("deluxe", [(0, mockDay (fun _ => (0 : ℚ)) 1 0 0 0)])
    (List.mem_cons_self _ _)
    (0, mockDay (fun _ => (0 : ℚ)) 1 0 0 0)
    (List.mem_cons_self _ _)

/-- C3: the channel health display renders a status snapshot for exactly the
four channels Booking.com, Airbnb, Expedia and Agoda, every channel's status
is either online or error, and rendering performs no effect (no mutation of
any application state). -/
theorem channel_health_readonly :
    ChannelHealthWidget.1.map (fun c => c.name)
        = ["Booking.com", "Airbnb", "Expedia", "Agoda"]
    ∧ CHANNELS.all (fun c =>
        c.status == ChannelStatusKind.online || c.status == ChannelStatusKind.error) = true
    ∧ ChannelHealthWidget.2 = [] :=
  ⟨rfl, rfl, rfl⟩

/-- C10: the Apply Changes handler performs no input validation: for every
form state — in particular an empty room type, an empty rate string, and an
undefined date range — it logs the values, closes the drawer, and performs no
other effect and no rejection. -/
theorem handleUpdate_no_validation :
    ∀ form : BulkForm,
      handleUpdate form
          = [RenderEffect.consoleLog ("Updating " ++ encodeForm form),
             RenderEffect.setDrawerOpen false]
        ∧ (handleUpdate form).all (fun e => !e.touchesOutside) = true := by
  intro form
  exact ⟨rfl, rfl⟩

/-- C1: every rendered value originates from in-file constants or the local
mock generator — the grid view is a function of `generateMockData`'s output
alone, the health widget renders exactly the static `CHANNELS` array, the
Apply Changes handler only logs and closes the drawer, and no component
produces a network, persistence or synchronization effect. -/
theorem dashboard_renders_only_local_data :
    (∀ (rng : Nat → ℚ) (today : Nat), (InventoryGrid rng today).2 = [])
    ∧ (∀ (rng rng2 : Nat → ℚ) (today : Nat),
        generateMockData rng today 30 = generateMockData rng2 today 30 →
        (InventoryGrid rng today).1 = (InventoryGrid rng2 today).1)
    ∧ ChannelHealthWidget = (CHANNELS.map renderChannel, [])
    ∧ (∀ form : BulkForm,
        handleUpdate form
            = [RenderEffect.consoleLog ("Updating " ++ encodeForm form),
               RenderEffect.setDrawerOpen false]
          ∧ (handleUpdate form).all (fun e => !e.touchesOutside) = true) := by
  refine ⟨fun rng today => rfl, ?_, rfl, fun form => ⟨rfl, rfl⟩⟩
  intro rng rng2 today h
  simp only [InventoryGrid]
  rw [h]

/-- Closed instance of `dashboard_renders_only_local_data`: the grid-view
determinism clause applied at a concrete stream, discharging its hypothesis
by reflexivity. -/
theorem dashboard_renders_only_local_data_witness :
    (InventoryGrid (fun _ => (0 : ℚ)) 0).1 = (InventoryGrid (fun _ => (0 : ℚ)) 0).1 :=
  dashboard_renders_only_local_data.2.1 (fun _ => 0) (fun _ => 0) 0 rfl

/-- An association-list lookup succeeds whenever the key occurs in the
list. -/
theorem lookup_isSome_of_key_mem {κ α : Type} [BEq κ] [LawfulBEq κ] :
    ∀ (l : List (κ × α)) (k : κ), (∃ v, (k, v) ∈ l) → (l.lookup k).isSome = true := by
  intro l
  induction l with
  | nil =>
    intro k h
    obtain ⟨v, hv⟩ := h
    simp at hv
  | cons a t ih =>
    intro k h
    obtain ⟨v, hv⟩ := h
    obtain ⟨k1, v1⟩ := a
    rw [List.lookup_cons]
    by_cases hk : (k == k1) = true
    · simp [hk]
    · rw [List.mem_cons] at hv
      rcases hv with heq | hmem
      · rw [Prod.mk.injEq] at heq
        rw [heq.1] at hk
        simp at hk
      · simp only [Bool.not_eq_true] at hk
        rw [hk]
        exact ih k ⟨v, hmem⟩

/-- Sequencing succeeds when every entry is defined. -/
theorem seqOption_isSome {α : Type} :
    ∀ l : List (Option α), (∀ x ∈ l, x.isSome = true) → (seqOption l).isSome = true := by
  intro l
  induction l with
  | nil => intro _; rfl
  | cons a t ih =>
    intro h
    cases a with
    | none =>
      have := h none (List.mem_cons_self _ _)
      simp at this
    | some v =>
      have ht : (seqOption t).isSome = true :=
        ih (fun x hx => h x (List.mem_cons_of_mem _ hx))
      obtain ⟨w, hw⟩ := Option.isSome_iff_exists.mp ht
      simp [seqOption, hw]

/-- Looking a room id up in the generated grid data yields that room's inner
date map, `r` being the room's position in `ROOM_TYPES`. -/
theorem generateMockData_lookup (rng : Nat → ℚ) (startDate days : Nat)
    (room : RoomType) (hroom : room ∈ ROOM_TYPES) :
    ∃ r, (generateMockData rng startDate days).lookup room.id
      = some ((List.range days).map (fun i =>
          (startDate + i, mockDay rng days r startDate i))) := by
  fin_cases hroom
  · exact ⟨0, rfl⟩
  · exact ⟨1, rfl⟩
  · exact ⟨2, rfl⟩
  · exact ⟨3, rfl⟩

/-- C9: every grid-cell lookup in `InventoryGrid` is defined — for each room
of `ROOM_TYPES` and each of the 30 dates derived from today, the data
generated by `generateMockData(today, 30)` populates the accessed key, and
the full grid render never encounters an undefined cell. -/
theorem grid_lookup_total :
    (∀ (rng : Nat → ℚ) (today : Nat) (room : RoomType) (i : Nat),
        room ∈ ROOM_TYPES → i < 30 →
        (gridLookup (generateMockData rng today 30) room.id (today + i)).isSome = true)
    ∧ (∀ (rng : Nat → ℚ) (today : Nat), (InventoryGrid rng today).1.isSome = true) := by
  have hcell : ∀ (rng : Nat → ℚ) (today : Nat) (room : RoomType) (i : Nat),
      room ∈ ROOM_TYPES → i < 30 →
      (gridLookup (generateMockData rng today 30) room.id (today + i)).isSome = true := by
    intro rng today room i hroom hi
    obtain ⟨r, hr⟩ := generateMockData_lookup rng today 30 room hroom
    unfold gridLookup
    rw [hr]
    exact lookup_isSome_of_key_mem _ _
      ⟨mockDay rng 30 r today i, List.mem_map.mpr ⟨i, List.mem_range.mpr hi, rfl⟩⟩
  refine ⟨hcell, ?_⟩
  intro rng today
  simp only [InventoryGrid]
  apply seqOption_isSome
  intro x hx
  rw [List.mem_map] at hx
  obtain ⟨room, hroom, rfl⟩ := hx
  rw [Option.isSome_map']
  apply seqOption_isSome
  intro y hy
  rw [List.mem_map] at hy
  obtain ⟨i, hi, rfl⟩ := hy
  exact hcell rng today room i hroom (List.mem_range.mp hi)

/-- Closed instance of `grid_lookup_total` at a concrete stream, today, room
and day offset. -/
theorem grid_lookup_total_witness :
    (gridLookup (generateMockData (fun _ => (0 : ℚ)) 0 30)
      (RoomType.mk "deluxe" "Deluxe King").id (0 + 0)).isSome = true :=
  grid_lookup_total.1 (fun _ => 0) 0 (RoomType.mk "deluxe" "Deluxe King") 0
    (List.mem_cons_self _ _) (by norm_num)

/-- C4 (spec-modelled): every successful `Ledger.apply` strictly increases the
stored version of its key, and an apply whose `expected_version` differs from
the current stored version of an existing key fails with `VersionConflict`. -/
theorem ledger_optimistic_lock :
    (∀ (l : Ledger) (key : String × Nat) (m : LedgerMutation)
        (expected : Option Nat) (v : Nat) (l' : Ledger),
        Ledger.apply l key m expected = .ok (v, l') →
        ledgerVersion l key < v ∧ ledgerVersion l' key = v)
    ∧ (∀ (l : Ledger) (key : String × Nat) (m : LedgerMutation)
        (expected : Option Nat) (d : InventoryDay),
        l.lookup key = some d → expected ≠ some d.version →
        Ledger.apply l key m expected = .error .VersionConflict) := by
  constructor
  · intro l key m expected v l' h
    cases hl : l.lookup key with
    | none =>
      cases expected with
      | none =>
        simp only [Ledger.apply, hl, Except.ok.injEq, Prod.mk.injEq] at h
        obtain ⟨hv, hl'⟩ := h
        subst hv
        subst hl'
        constructor
        · simp [ledgerVersion, hl]
        · simp [ledgerVersion, List.lookup_cons, firstDay]
      | some w => simp [Ledger.apply, hl] at h
    | some d =>
      cases expected with
      | none => simp [Ledger.apply, hl] at h
      | some w =>
        simp only [Ledger.apply, hl] at h
        by_cases hw : w = d.version
        · rw [if_pos hw] at h
          simp only [Except.ok.injEq, Prod.mk.injEq] at h
          obtain ⟨hv, hl'⟩ := h
          subst hv
          subst hl'
          constructor
          · simp [ledgerVersion, hl, applyFields]
          · simp [ledgerVersion, List.lookup_cons, applyFields]
        · rw [if_neg hw] at h
          simp at h
  · intro l key m expected d hl hne
    cases expected with
    | none => simp [Ledger.apply, hl]
    | some w =>
      have hw : ¬ w = d.version := fun hh => hne (by rw [hh])
      simp only [Ledger.apply, hl]
      rw [if_neg hw]

/-- Closed instance of `ledger_optimistic_lock`: a first write bumps the
version from 0 to 1, and a write with a stale expected version against an
existing day is refused. -/
theorem ledger_optimistic_lock_witness :
    (ledgerVersion [] ("deluxe", 0) < 1
      ∧ ledgerVersion
          [(("deluxe", 0), firstDay (LedgerMutation.mk (some 5) (some 120) (some true)))]
          ("deluxe", 0) = 1)
    ∧ Ledger.apply [(("deluxe", 0), InventoryDay.mk 5 120 true 3)] ("deluxe", 0)
        (LedgerMutation.mk (some 4) none none) (some 2)
        = .error .VersionConflict :=
  ⟨ledger_optimistic_lock.1 [] ("deluxe", 0)
      (LedgerMutation.mk (some 5) (some 120) (some true)) none 1 _ rfl,
   ledger_optimistic_lock.2 [(("deluxe", 0), InventoryDay.mk 5 120 true 3)] ("deluxe", 0)
      (LedgerMutation.mk (some 4) none none) (some 2)
      (InventoryDay.mk 5 120 true 3) rfl (by decide)⟩

/-- C8 (spec-modelled): a cancellation event for a Booking that is already
cancelled succeeds as a no-op — it returns the current Ledger version for the
booking's key, changes neither the Booking store nor the Ledger, and raises
no error. -/
theorem cancel_already_cancelled_noop :
    ∀ (st : EngineState) (bid : String) (b : Booking),
      st.bookings.find? (fun x => x.id == bid) = some b →
      b.status = .cancelled →
      cancelBooking st bid
        = .ok (ledgerVersion st.ledger (b.room_type_id, b.check_in), st) := by
  intro st bid b hfind hst
  simp only [cancelBooking, hfind, hst]

/-- Closed instance of `cancel_already_cancelled_noop` on a one-booking
state whose booking is already cancelled. -/
theorem cancel_already_cancelled_noop_witness :
    cancelBooking
        (EngineState.mk []
          [Booking.mk "b1" "deluxe" 0 2 "airbnb" "X1" BookingStatus.cancelled 0 1])
        "b1"
      = .ok (ledgerVersion [] ("deluxe", 0),
          EngineState.mk []
            [Booking.mk "b1" "deluxe" 0 2 "airbnb" "X1" BookingStatus.cancelled 0 1]) :=
  cancel_already_cancelled_noop
    (EngineState.mk []
      [Booking.mk "b1" "deluxe" 0 2 "airbnb" "X1" BookingStatus.cancelled 0 1])
    "b1"
    (Booking.mk "b1" "deluxe" 0 2 "airbnb" "X1" BookingStatus.cancelled 0 1)
    (by decide) rfl

/-- C6 (spec-modelled): when two confirmed bookings from different channels
overlap the same room type and dates and together exceed capacity, the
resolution confirms exactly the booking with the earliest `created_at` and
moves the other to the CONFLICT state, whichever order the two arrive in. -/
theorem reconcile_earliest_created_at_wins :
    ∀ (capacity : Nat) (a b : Booking),
      a.status = .confirmed → b.status = .confirmed →
      a.source_channel ≠ b.source_channel →
      bookingsOverlap a b = true →
      capacity < a.units + b.units →
      a.created_at < b.created_at →
      resolveDoubleBooking capacity a b = (a, conflictLoser b)
      ∧ resolveDoubleBooking capacity b a = (conflictLoser b, a)
      ∧ (resolveDoubleBooking capacity a b).1.status = .confirmed
      ∧ (resolveDoubleBooking capacity a b).2.status = .conflict := by
  intro capacity a b ha hb hch hov hcap hlt
  have hov2 : bookingsOverlap b a = true := by
    simp only [bookingsOverlap, Bool.and_eq_true, beq_iff_eq, decide_eq_true_eq]
      at hov ⊢
    exact ⟨⟨hov.1.1.symm, hov.2⟩, hov.1.2⟩
  have h1 : resolveDoubleBooking capacity a b = (a, conflictLoser b) := by
    simp only [resolveDoubleBooking, ha, hb, hov, hcap]
    simp [bne_iff_ne, hch, hcap, Nat.le_of_lt hlt]
  have h2 : resolveDoubleBooking capacity b a = (conflictLoser b, a) := by
    simp only [resolveDoubleBooking, ha, hb, hov2]
    have hch2 : b.source_channel ≠ a.source_channel := fun hh => hch hh.symm
    have hcap2 : capacity < b.units + a.units := by omega
    have hle : ¬ b.created_at ≤ a.created_at := by omega
    simp [bne_iff_ne, hch2, hcap2, hle]
  refine ⟨h1, h2, ?_, ?_⟩
  · rw [h1]
    exact ha
  · rw [h1]
    rfl

/-- Closed instance of `reconcile_earliest_created_at_wins` on the section 8
scenario: deluxe capacity 10, booking A (booking.com, 2 units, created first)
and booking B (airbnb, 9 units, created later) on the same two nights. -/
theorem reconcile_earliest_created_at_wins_witness :
    resolveDoubleBooking 10
        (Booking.mk "A" "deluxe" 0 2 "booking.com" "RA" BookingStatus.confirmed 0 2)
        (Booking.mk "B" "deluxe" 0 2 "airbnb" "RB" BookingStatus.confirmed 1 9)
      = (Booking.mk "A" "deluxe" 0 2 "booking.com" "RA" BookingStatus.confirmed 0 2,
         conflictLoser (Booking.mk "B" "deluxe" 0 2 "airbnb" "RB" BookingStatus.confirmed 1 9))
    ∧ resolveDoubleBooking 10
        (Booking.mk "B" "deluxe" 0 2 "airbnb" "RB" BookingStatus.confirmed 1 9)
        (Booking.mk "A" "deluxe" 0 2 "booking.com" "RA" BookingStatus.confirmed 0 2)
      = (conflictLoser (Booking.mk "B" "deluxe" 0 2 "airbnb" "RB" BookingStatus.confirmed 1 9),
         Booking.mk "A" "deluxe" 0 2 "booking.com" "RA" BookingStatus.confirmed 0 2)
    ∧ (resolveDoubleBooking 10
        (Booking.mk "A" "deluxe" 0 2 "booking.com" "RA" BookingStatus.confirmed 0 2)
        (Booking.mk "B" "deluxe" 0 2 "airbnb" "RB" BookingStatus.confirmed 1 9)).1.status
        = BookingStatus.confirmed
    ∧ (resolveDoubleBooking 10
        (Booking.mk "A" "deluxe" 0 2 "booking.com" "RA" BookingStatus.confirmed 0 2)
        (Booking.mk "B" "deluxe" 0 2 "airbnb" "RB" BookingStatus.confirmed 1 9)).2.status
        = BookingStatus.conflict :=
  reconcile_earliest_created_at_wins 10
    (Booking.mk "A" "deluxe" 0 2 "booking.com" "RA" BookingStatus.confirmed 0 2)
    (Booking.mk "B" "deluxe" 0 2 "airbnb" "RB" BookingStatus.confirmed 1 9)
    rfl rfl (by decide) (by decide) (by decide) (by decide)

/-- C7 (spec-modelled): five consecutive dispatch failures open the circuit;
while the circuit is open and the cool-down window has not elapsed nothing is
dispatched; once it elapses, exactly one half-open probe is issued, and no
further dispatch happens on that channel until the probe resolves. -/
theorem circuit_breaker_protocol :
    (∀ (st : ChannelAdapterState) (t0 t1 t2 t3 t4 : Nat),
        st.consecutive_failure_count = 0 →
        (recordFailure (recordFailure (recordFailure (recordFailure
          (recordFailure st t0) t1) t2) t3) t4).circuit_state = .opened)
    ∧ (∀ (st : ChannelAdapterState) (window now : Nat),
        st.circuit_state = .opened → now < st.opened_at + window →
        dispatchStep st window now = (.suspended, st))
    ∧ (∀ (st : ChannelAdapterState) (window now : Nat),
        st.circuit_state = .opened → st.opened_at + window ≤ now →
        dispatchStep st window now
            = (.halfOpenProbe, { st with circuit_state := CircuitState.halfOpen })
          ∧ ∀ now2 : Nat,
              dispatchStep { st with circuit_state := CircuitState.halfOpen } window now2
                = (.suspended, { st with circuit_state := CircuitState.halfOpen })) := by
  refine ⟨?_, ?_, ?_⟩
  · intro st t0 t1 t2 t3 t4 h0
    simp [recordFailure, failureThreshold, h0]
  · intro st window now hopen hnow
    simp only [dispatchStep, hopen]
    rw [if_pos hnow]
  · intro st window now hopen hnow
    constructor
    · simp only [dispatchStep, hopen]
      rw [if_neg (by omega)]
    · intro now2
      simp [dispatchStep]

/-- Closed instance of `circuit_breaker_protocol`: a fresh channel state
accumulates five failures and opens; suspended inside the window, probed once
at its end. -/
theorem circuit_breaker_protocol_witness :
    (recordFailure (recordFailure (recordFailure (recordFailure
        (recordFailure (ChannelAdapterState.mk 0 CircuitState.closed 0) 1) 2) 3) 4) 5).circuit_state
      = CircuitState.opened
    ∧ dispatchStep (ChannelAdapterState.mk 5 CircuitState.opened 5) 10 7
        = (DispatchAction.suspended, ChannelAdapterState.mk 5 CircuitState.opened 5)
    ∧ dispatchStep (ChannelAdapterState.mk 5 CircuitState.opened 5) 10 20
        = (DispatchAction.halfOpenProbe, ChannelAdapterState.mk 5 CircuitState.halfOpen 5) :=
  ⟨circuit_breaker_protocol.1 (ChannelAdapterState.mk 0 CircuitState.closed 0) 1 2 3 4 5 rfl,
   circuit_breaker_protocol.2.1 (ChannelAdapterState.mk 5 CircuitState.opened 5) 10 7
     rfl (by norm_num),
   (circuit_breaker_protocol.2.2 (ChannelAdapterState.mk 5 CircuitState.opened 5) 10 20
     rfl (by norm_num)).1⟩

/-- Cancelling the missing bookings changes at most the status field. -/
theorem cancelMissing_fields (ch : String) (feed : List IcalEvent) (b : Booking) :
    (cancelMissing ch feed b).source_channel = b.source_channel
    ∧ (cancelMissing ch feed b).external_reservation_id = b.external_reservation_id := by
  unfold cancelMissing
  by_cases h : (b.source_channel == ch && b.status == BookingStatus.confirmed
      && !(feed.any (fun e => e.uid == b.external_reservation_id))) = true
  · rw [if_pos h]
    exact ⟨rfl, rfl⟩
  · rw [if_neg h]
    exact ⟨rfl, rfl⟩

/-- The function `cancelMissing` is idempotent on each booking: once cancelled, the
status test fails and the booking is left alone. -/
theorem cancelMissing_idem (ch : String) (feed : List IcalEvent) (b : Booking) :
    cancelMissing ch feed (cancelMissing ch feed b) = cancelMissing ch feed b := by
  by_cases h : (b.source_channel == ch && b.status == BookingStatus.confirmed
      && !(feed.any (fun e => e.uid == b.external_reservation_id))) = true
  · have h1 : cancelMissing ch feed b = { b with status := .cancelled } := by
      simp only [cancelMissing, if_pos h]
    rw [h1]
    simp only [cancelMissing]
    rw [if_neg (by simp)]
  · have h1 : cancelMissing ch feed b = b := by
      simp only [cancelMissing, if_neg h]
    rw [h1, h1]

/-- A booking freshly created from a feed event is not cancelled by the same
feed: its external id is in the feed. -/
theorem cancelMissing_icalBooking (ch : String) (feed : List IcalEvent) (now : Nat)
    (e : IcalEvent) (he : e ∈ feed) :
    cancelMissing ch feed (icalBooking ch now e) = icalBooking ch now e := by
  simp only [cancelMissing]
  rw [if_neg ?_]
  intro hcond
  have hany : feed.any (fun x => x.uid == (icalBooking ch now e).external_reservation_id)
      = true :=
    List.any_eq_true.mpr ⟨e, he, by simp [icalBooking]⟩
  rw [Bool.and_eq_true, Bool.and_eq_true] at hcond
  rw [hany] at hcond
  simp at hcond

/-- After one ingestion, every feed event has a booking of the feed's channel
carrying its external id. -/
theorem ingestIcal_covers_feed (ch : String) (feed : List IcalEvent) (now : Nat)
    (bs : List Booking) (e : IcalEvent) (he : e ∈ feed) :
    (ingestIcal ch feed now bs).any
      (fun b => b.source_channel == ch && b.external_reservation_id == e.uid) = true := by
  by_cases h : bs.any
      (fun b => b.source_channel == ch && b.external_reservation_id == e.uid) = true
  · obtain ⟨b, hb, hq⟩ := List.any_eq_true.mp h
    apply List.any_eq_true.mpr
    refine ⟨cancelMissing ch feed b, ?_, ?_⟩
    · simp only [ingestIcal, List.mem_append]
      left
      exact List.mem_map.mpr ⟨b, hb, rfl⟩
    · obtain ⟨h1, h2⟩ := cancelMissing_fields ch feed b
      show (_ && _) = true
      rw [h1, h2]
      exact hq
  · apply List.any_eq_true.mpr
    refine ⟨icalBooking ch now e, ?_, ?_⟩
    · simp only [ingestIcal, List.mem_append]
      right
      apply List.mem_map.mpr
      refine ⟨e, ?_, rfl⟩
      apply List.mem_filter.mpr
      refine ⟨he, ?_⟩
      simp only [Bool.not_eq_true] at h
      show (!_) = true
      rw [h]
      rfl
    · simp [icalBooking]

/-- Re-running the cancel half of the diff over an already-ingested store
changes nothing. -/
theorem ingestIcal_map_cancelMissing (ch : String) (feed : List IcalEvent)
    (now : Nat) (bs : List Booking) :
    (ingestIcal ch feed now bs).map (cancelMissing ch feed)
      = ingestIcal ch feed now bs := by
  simp only [ingestIcal, List.map_append, List.map_map]
  congr 1
  · exact List.map_congr_left (fun b _ => cancelMissing_idem ch feed b)
  · refine List.map_congr_left (fun e hef => ?_)
    have he : e ∈ feed := (List.mem_filter.mp hef).1
    exact cancelMissing_icalBooking ch feed now e he

/-- Re-running the add half of the diff over an already-ingested store adds
nothing: every feed event is already covered. -/
theorem ingestIcal_filter_nil (ch : String) (feed : List IcalEvent)
    (now : Nat) (bs : List Booking) :
    feed.filter (fun e => !((ingestIcal ch feed now bs).any
      (fun b => b.source_channel == ch && b.external_reservation_id == e.uid))) = [] := by
  rw [List.filter_eq_nil_iff]
  intro e he
  intro hcontra
  rw [ingestIcal_covers_feed ch feed now bs e he] at hcontra
  simp at hcontra

/-- C5 (spec-modelled): ingesting the same iCal feed twice in succession for a
channel produces zero net change — the second ingestion returns the Booking
store of the first unchanged, whatever the two ingestion times are. -/
theorem ingestIcal_idempotent :
    ∀ (ch : String) (feed : List IcalEvent) (now now2 : Nat) (bs : List Booking),
      ingestIcal ch feed now2 (ingestIcal ch feed now bs) = ingestIcal ch feed now bs := by
  intro ch feed now now2 bs
  show (ingestIcal ch feed now bs).map (cancelMissing ch feed)
      ++ (feed.filter (fun e => !((ingestIcal ch feed now bs).any
          (fun b => b.source_channel == ch && b.external_reservation_id == e.uid)))).map
        (icalBooking ch now2)
    = ingestIcal ch feed now bs
  rw [ingestIcal_map_cancelMissing, ingestIcal_filter_nil]
  simp
